import Mathlib

/-
Verification development for the assessment-session lifecycle and integrity
engine of `backend/app/api/routes/tests.py` (with the data model of
`backend/app/models/test.py`).

Embedding conventions:
* Timestamps (`datetime.utcnow()` values, `start_time`, `end_time`,
  `current_break_start`, break-entry endpoints) are modelled as integers
  (seconds); `datetime` subtraction followed by `int(...total_seconds())`
  is exact integer subtraction in this model.  Client-supplied timestamps
  are strings in the Python code (`AntiCheatEvent.timestamp : str`) and are
  modelled as `String`, which keeps them syntactically distinct from
  server-assigned times.
* Python ints are `ℤ` (or `ℕ` for fields that are always non-negative
  counters); float arithmetic in `calculate_break_time` and the violation
  score is modelled over `ℚ` (all values involved are exactly representable
  as binary floats, so `ℚ` arithmetic agrees with the Python float result);
  Python `int(x)` on the non-negative values involved is `Int.floor`.
* The SQLAlchemy columns with `default=0` / `default=list` are modelled as
  non-optional fields; the defensive Python pattern `x or 0` is then the
  identity (`0 or 0 == 0`).  The pattern `x or fallback` with a non-zero
  fallback is modelled faithfully by `pyOrInt`.
* Each route handler becomes a pure function of the current server time
  `now`, the request payload, and the fetched `Test` row, returning either
  an error (`HTTPException`) or the updated row together with the response
  payload.  Database commit/refresh is the identity in this model (the
  store is assumed to provide atomic read-modify-write).
-/

namespace KOSTests

/-- Status values of a test session, from `TestStatus` in
`backend/app/models/test.py`. -/
inductive TestStatus
  | pending
  | in_progress
  | on_break
  | completed
  | expired
deriving DecidableEq, Repr

/-- Anti-cheat event types, from the `Literal` type of
`AntiCheatEvent.event_type` in `backend/app/api/routes/tests.py`. -/
inductive EventType
  | tab_switch
  | paste_attempt
  | code_copy
  | code_paste
  | copy_attempt
  | right_click
  | dev_tools_open
  | focus_loss
deriving DecidableEq, Repr

/-- One entry of `Test.break_history` (a JSON object with keys
`start`, `end`, `duration_seconds`).  The `end` field is null while the
break is open. -/
structure BreakEntry where
  start : ℤ
  «end» : Option ℤ
  duration_seconds : ℤ
deriving DecidableEq, Repr

/-- One entry of `Test.violation_events` (a JSON object with keys
`type`, `timestamp`, `details`, `chars`, `lines`); `timestamp` is the
string taken from the request body. -/
structure ViolationEvent where
  type : EventType
  timestamp : String
  details : String
  chars : Option ℤ
  lines : Option ℤ
deriving DecidableEq, Repr

/-- Request body of the anti-cheat endpoint (`AntiCheatEvent` in
`backend/app/api/routes/tests.py`). -/
structure AntiCheatEvent where
  event_type : EventType
  timestamp : String
  chars : Option ℤ
  lines : Option ℤ
  details : Option String
deriving DecidableEq, Repr

/-- The fields of the `Test` row (`backend/app/models/test.py`) that the
session-lifecycle and integrity endpoints read or write. -/
structure Test where
  candidate_id : ℕ
  duration_hours : ℕ
  status : TestStatus
  start_time : Option ℤ
  end_time : Option ℤ
  current_section : Option String
  total_break_time_seconds : ℤ
  used_break_time_seconds : ℤ
  break_count : ℕ
  current_break_start : Option ℤ
  break_history : List BreakEntry
  tab_switch_count : ℕ
  tab_switch_timestamps : List String
  paste_attempt_count : ℕ
  copy_attempt_count : ℕ
  right_click_count : ℕ
  dev_tools_open_count : ℕ
  focus_loss_count : ℕ
  violation_events : List ViolationEvent
  warning_count : ℕ
  is_disqualified : Bool
  disqualified_at : Option ℤ
  disqualification_reason : Option String
deriving DecidableEq, Repr

/-- Error outcomes of the route handlers (`HTTPException` status codes
actually raised in `backend/app/api/routes/tests.py`). -/
inductive ApiError
  | notFound
  | badRequest
  | conflict
  | internalError
deriving DecidableEq, Repr

deriving instance DecidableEq for Except

/-- Python `x or y` on an integer `x` (0 is falsy, every other integer is
truthy).  Used where the code writes `test.total_break_time_seconds or
total_break`. -/
def pyOrInt (x y : ℤ) : ℤ :=
  if x = 0 then y else x

/-- Embedding of `calculate_break_time(duration_hours)`: total break
allowance and maximum single break, both in seconds, as a piecewise-linear
function of the duration.  The Python float arithmetic is modelled over
`ℚ`; `int(...)` is the floor (`Rat.floor`; all intermediate values are
non-negative, where Python `int` truncation and floor agree). -/
def calculate_break_time (duration_hours : ℕ) : ℕ × ℕ :=
  if duration_hours ≥ 8 then
    (60 * 60, 20 * 60)
  else if duration_hours ≥ 4 then
    let total_minutes : ℚ := 30 + ((duration_hours - 4 : ℕ) : ℚ) * (30 / 4)
    let max_single : ℚ := 15 + ((duration_hours - 4 : ℕ) : ℚ) * (5 / 4)
    ((total_minutes * 60).floor.toNat, (max_single * 60).floor.toNat)
  else if duration_hours ≥ 2 then
    let total_minutes : ℚ := 15 + ((duration_hours - 2 : ℕ) : ℚ) * (15 / 2)
    ((total_minutes * 60).floor.toNat, 15 * 60)
  else
    (10 * 60, 10 * 60)

theorem rat_floor_eq_int_floor (q : ℚ) : q.floor = ⌊q⌋ := by
  rw [Rat.floor_def', Rat.floor_def]

/-- Closed form of `calculate_break_time`: on integer durations (the field
`duration_hours` is a SQL `Integer`) the float interpolation of the Python
code is exact and the `int(...)` conversions are the identity. -/
theorem calculate_break_time_eq (d : ℕ) :
    calculate_break_time d =
      if 8 ≤ d then (3600, 1200)
      else if 4 ≤ d then (1800 + (d - 4) * 450, 900 + (d - 4) * 75)
      else if 2 ≤ d then (900 + (d - 2) * 450, 900)
      else (600, 600) := by
  unfold calculate_break_time
  by_cases h8 : 8 ≤ d
  · simp [h8]
  · by_cases h4 : 4 ≤ d
    · have e1 : ((30 : ℚ) + ((d - 4 : ℕ) : ℚ) * (30 / 4)) * 60 =
          ((1800 + (d - 4) * 450 : ℕ) : ℚ) := by push_cast; ring
      have e2 : ((15 : ℚ) + ((d - 4 : ℕ) : ℚ) * (5 / 4)) * 60 =
          ((900 + (d - 4) * 75 : ℕ) : ℚ) := by push_cast; ring
      simp only [ge_iff_le, h8, h4, if_true, if_false, e1, e2,
        rat_floor_eq_int_floor, Int.floor_natCast, Int.toNat_natCast]
    · by_cases h2 : 2 ≤ d
      · have e3 : ((15 : ℚ) + ((d - 2 : ℕ) : ℚ) * (15 / 2)) * 60 =
            ((900 + (d - 2) * 450 : ℕ) : ℚ) := by push_cast; ring
        simp only [ge_iff_le, h8, h4, h2, if_true, if_false, e3,
          rat_floor_eq_int_floor, Int.floor_natCast, Int.toNat_natCast]
      · simp [h8, h4, h2]

example : calculate_break_time 4 = (1800, 900) := by simp [calculate_break_time_eq]
example : calculate_break_time 8 = (3600, 1200) := by simp [calculate_break_time_eq]
example : calculate_break_time 5 = (2250, 975) := by simp [calculate_break_time_eq]
example : calculate_break_time 1 = (600, 600) := by simp [calculate_break_time_eq]
example : calculate_break_time 3 = (1350, 900) := by simp [calculate_break_time_eq]

/-- Embedding of the `start_test` route (`POST /token/.../start`): requires
status Pending, then sets status InProgress, `start_time = now` and the
initial section. -/
def start_test (now : ℤ) (t : Test) : Except ApiError Test :=
  if t.status ≠ TestStatus.pending then
    Except.error ApiError.badRequest
  else
    Except.ok { t with
      status := TestStatus.in_progress,
      start_time := some now,
      current_section := some "brain_teaser" }

/-- Embedding of the Python pattern
`if history and history[-1].get("end") is None: history[-1]["end"] = ...;
history[-1]["duration_seconds"] = ...` used by `complete_test` and
`end_break` to close the last open break-history entry. -/
def closeLastOpenEntry (history : List BreakEntry) (endTime : ℤ) (dur : ℤ) :
    List BreakEntry :=
  match history.getLast? with
  | some last =>
      if last.«end» = none then
        history.dropLast ++ [{ last with «end» := some endTime, duration_seconds := dur }]
      else history
  | none => history

/-- Embedding of the `complete_test` route (`POST /token/.../complete`):
idempotent on Completed; if OnBreak with a recorded break start, the open
break is force-closed (crediting the raw elapsed duration, with no cap)
before the status moves to Completed and `end_time` is set. -/
def complete_test (now : ℤ) (t : Test) : Except ApiError Test :=
  if t.status = TestStatus.completed then
    Except.ok t
  else
    let t1 :=
      match t.current_break_start with
      | some cbs =>
          if t.status = TestStatus.on_break then
            let break_duration : ℤ := now - cbs
            { t with
              used_break_time_seconds := t.used_break_time_seconds + break_duration,
              break_history := closeLastOpenEntry t.break_history now break_duration,
              current_break_start := none }
          else t
      | none => t
    Except.ok { t1 with status := TestStatus.completed, end_time := some now }

/-- Response payload of `start_break` (the `message` string is represented
by the data it is formatted from). -/
structure BreakStartResponse where
  success : Bool
  remaining_break_time_seconds : ℤ
  max_single_break_seconds : ℕ
  break_start_time : Option ℤ
deriving DecidableEq, Repr

/-- Embedding of the `start_break` route (`POST /token/.../break/start`):
requires status InProgress and positive remaining budget; then moves to
OnBreak, records `current_break_start`, increments `break_count` and
appends an open break-history entry. -/
def start_break (now : ℤ) (t : Test) : Except ApiError (Test × BreakStartResponse) :=
  if t.status ≠ TestStatus.in_progress then
    Except.error ApiError.badRequest
  else
    let tb := calculate_break_time t.duration_hours
    let total_allowed := pyOrInt t.total_break_time_seconds (tb.1 : ℤ)
    let used := t.used_break_time_seconds
    let remaining := total_allowed - used
    if remaining ≤ 0 then
      Except.error ApiError.badRequest
    else
      let t1 := { t with
        status := TestStatus.on_break,
        current_break_start := some now,
        break_count := t.break_count + 1,
        break_history := t.break_history ++
          [{ start := now, «end» := none, duration_seconds := 0 }] }
      Except.ok (t1,
        { success := true,
          remaining_break_time_seconds := remaining,
          max_single_break_seconds := tb.2,
          break_start_time := some now })

/-- Response payload of `end_break`; `exceeded` records whether the code
appends the overrun warning to the message. -/
structure BreakEndResponse where
  success : Bool
  exceeded : Bool
  break_duration_seconds : ℤ
  remaining_break_time_seconds : ℤ
  total_used_break_time_seconds : ℤ
deriving DecidableEq, Repr

/-- Embedding of the `end_break` route (`POST /token/.../break/end`):
requires status OnBreak and a recorded `current_break_start`; credits
`min(elapsed, remaining_before)` to `used_break_time_seconds`, closes the
open history entry and returns to InProgress. -/
def end_break (now : ℤ) (t : Test) : Except ApiError (Test × BreakEndResponse) :=
  if t.status ≠ TestStatus.on_break then
    Except.error ApiError.badRequest
  else
    match t.current_break_start with
    | none => Except.error ApiError.badRequest
    | some cbs =>
        let break_duration : ℤ := now - cbs
        let tb := calculate_break_time t.duration_hours
        let total_allowed := pyOrInt t.total_break_time_seconds (tb.1 : ℤ)
        let used_before := t.used_break_time_seconds
        let remaining_before := total_allowed - used_before
        let actual_duration := min break_duration remaining_before
        let exceeded := remaining_before < break_duration
        let t1 := { t with
          used_break_time_seconds := used_before + actual_duration,
          current_break_start := none,
          status := TestStatus.in_progress,
          break_history := closeLastOpenEntry t.break_history now actual_duration }
        Except.ok (t1,
          { success := true,
            exceeded := exceeded,
            break_duration_seconds := actual_duration,
            remaining_break_time_seconds := total_allowed - t1.used_break_time_seconds,
            total_used_break_time_seconds := t1.used_break_time_seconds })

/-- The part of the `TestWithQuestions` response built by
`get_test_by_token` that concerns the session lifecycle (question payload
and candidate metadata omitted). -/
structure GetSessionView where
  status : TestStatus
  start_time : Option ℤ
  end_time : Option ℤ
  time_remaining_seconds : Option ℤ
  total_break_time_seconds : ℤ
  used_break_time_seconds : ℤ
  break_count : ℕ
  is_on_break : Bool
  remaining_break_time_seconds : ℤ
  max_single_break_seconds : ℕ
  break_history : List BreakEntry
  is_disqualified : Bool
  disqualification_reason : Option String
deriving DecidableEq, Repr

/-- Embedding of the `get_test_by_token` route (`GET /token/...`): lazy
expiry (only while InProgress, suppressed while OnBreak), then the computed
remaining time and break information.  Returns the possibly-updated row
and the response view. -/
def get_test_by_token (now : ℤ) (t : Test) : Test × GetSessionView :=
  let t1 :=
    match t.start_time with
    | some st =>
        if t.status = TestStatus.in_progress ∨ t.status = TestStatus.on_break then
          let effective_end := st + (t.duration_hours : ℤ) * 3600 + t.used_break_time_seconds
          if effective_end < now ∧ t.status ≠ TestStatus.on_break then
            { t with status := TestStatus.expired }
          else t
        else t
    | none => t
  let time_remaining : Option ℤ :=
    match t1.start_time with
    | some st =>
        if t1.status = TestStatus.in_progress ∨ t1.status = TestStatus.on_break then
          some (max 0 (st + (t1.duration_hours : ℤ) * 3600 + t1.used_break_time_seconds - now))
        else none
    | none => none
  let tb := calculate_break_time t1.duration_hours
  let total_allowed := pyOrInt t1.total_break_time_seconds (tb.1 : ℤ)
  (t1,
   { status := t1.status,
     start_time := t1.start_time,
     end_time := t1.end_time,
     time_remaining_seconds := time_remaining,
     total_break_time_seconds := total_allowed,
     used_break_time_seconds := t1.used_break_time_seconds,
     break_count := t1.break_count,
     is_on_break := t1.status = TestStatus.on_break,
     remaining_break_time_seconds := max 0 (total_allowed - t1.used_break_time_seconds),
     max_single_break_seconds := tb.2,
     break_history := t1.break_history,
     is_disqualified := t1.is_disqualified,
     disqualification_reason := t1.disqualification_reason })

/-- Outcome of the admin `mark_test_completed` route, abstracting the two
response dictionaries. -/
inductive MarkCompletedResult
  | alreadyCompleted
  | marked (previous_status : TestStatus)
deriving DecidableEq, Repr

/-- Embedding of the admin `mark_test_completed` route
(`POST /tests/id/mark-completed`): returns unchanged if already Completed,
otherwise sets status Completed and `end_time = end_time or now`. -/
def mark_test_completed (now : ℤ) (t : Test) : Test × MarkCompletedResult :=
  if t.status = TestStatus.completed then
    (t, MarkCompletedResult.alreadyCompleted)
  else
    ({ t with
        status := TestStatus.completed,
        end_time := some (t.end_time.getD now) },
     MarkCompletedResult.marked t.status)

/-- Embedding of the admin `reinstate_disqualified_test` route: requires
`is_disqualified`, then clears every violation counter and log, clears the
disqualification fields and forces status InProgress. -/
def reinstate_disqualified_test (t : Test) : Except ApiError Test :=
  if t.is_disqualified = false then
    Except.error ApiError.badRequest
  else
    Except.ok { t with
      status := TestStatus.in_progress,
      is_disqualified := false,
      disqualification_reason := none,
      disqualified_at := none,
      tab_switch_count := 0,
      paste_attempt_count := 0,
      copy_attempt_count := 0,
      right_click_count := 0,
      dev_tools_open_count := 0,
      focus_loss_count := 0,
      warning_count := 0,
      violation_events := [],
      tab_switch_timestamps := [] }

/-- The `ANTI_CHEAT_CONFIG` dictionary: thresholds and the per-type
violation weights (the weights dictionary has exactly the six keys below;
`code_paste` and `code_copy` events feed the paste/copy counters). -/
structure AntiCheatConfig where
  warning_threshold : ℚ
  disqualification_threshold : ℚ
  weight_tab_switch : ℚ
  weight_paste_attempt : ℚ
  weight_copy_attempt : ℚ
  weight_right_click : ℚ
  weight_dev_tools_open : ℚ
  weight_focus_loss : ℚ
deriving DecidableEq, Repr

/-- The configured values of `ANTI_CHEAT_CONFIG` in
`backend/app/api/routes/tests.py`. -/
def ANTI_CHEAT_CONFIG : AntiCheatConfig :=
  { warning_threshold := 3,
    disqualification_threshold := 5,
    weight_tab_switch := 1,
    weight_paste_attempt := 2,
    weight_copy_attempt := 1,
    weight_right_click := 1 / 2,
    weight_dev_tools_open := 3,
    weight_focus_loss := 1 / 2 }

/-- Counter updates of `log_anti_cheat_event` per event type (the
`if/elif` chain over `event.event_type`). -/
def update_violation_counters (e : AntiCheatEvent) (t : Test) : Test :=
  match e.event_type with
  | EventType.tab_switch =>
      { t with tab_switch_count := t.tab_switch_count + 1,
               tab_switch_timestamps := t.tab_switch_timestamps ++ [e.timestamp] }
  | EventType.paste_attempt => { t with paste_attempt_count := t.paste_attempt_count + 1 }
  | EventType.code_paste => { t with paste_attempt_count := t.paste_attempt_count + 1 }
  | EventType.copy_attempt => { t with copy_attempt_count := t.copy_attempt_count + 1 }
  | EventType.code_copy => { t with copy_attempt_count := t.copy_attempt_count + 1 }
  | EventType.right_click => { t with right_click_count := t.right_click_count + 1 }
  | EventType.dev_tools_open => { t with dev_tools_open_count := t.dev_tools_open_count + 1 }
  | EventType.focus_loss => { t with focus_loss_count := t.focus_loss_count + 1 }

/-- The weighted violation score computed by `log_anti_cheat_event` from
the per-type counters and `ANTI_CHEAT_CONFIG` weights. -/
def violation_score_of (cfg : AntiCheatConfig) (t : Test) : ℚ :=
  (t.tab_switch_count : ℚ) * cfg.weight_tab_switch +
  (t.paste_attempt_count : ℚ) * cfg.weight_paste_attempt +
  (t.copy_attempt_count : ℚ) * cfg.weight_copy_attempt +
  (t.right_click_count : ℚ) * cfg.weight_right_click +
  (t.dev_tools_open_count : ℚ) * cfg.weight_dev_tools_open +
  (t.focus_loss_count : ℚ) * cfg.weight_focus_loss

/-- The warning-boundary test of `log_anti_cheat_event`, kept in the exact
shape of the source expression
`violation_score >= warning_threshold * (warning_count + 1) / warning_threshold`. -/
def warning_boundary (cfg : AntiCheatConfig) (score : ℚ) (warning_count : ℕ) : Prop :=
  score ≥ cfg.warning_threshold * ((warning_count : ℚ) + 1) / cfg.warning_threshold

instance (cfg : AntiCheatConfig) (score : ℚ) (wc : ℕ) :
    Decidable (warning_boundary cfg score wc) := by
  unfold warning_boundary; infer_instance

/-- The disqualification reason string
`f"Exceeded violation threshold (score: {violation_score:.1f})"` (the exact
decimal formatting is immaterial; the reason embeds the score). -/
def disqualification_reason_string (score : ℚ) : String :=
  "Exceeded violation threshold (score: " ++ toString score ++ ")"

/-- Non-error outcome of the anti-cheat endpoint: either the blocked
response for an already-disqualified test, or the recorded response with
the updated counters. -/
structure AntiCheatRecordedResponse where
  success : Bool
  tab_switch_count : ℕ
  paste_attempt_count : ℕ
  copy_attempt_count : ℕ
  right_click_count : ℕ
  dev_tools_open_count : ℕ
  focus_loss_count : ℕ
  violation_score : ℚ
  warning_count : ℕ
  should_warn : Bool
  is_disqualified : Bool
  disqualification_reason : Option String
deriving DecidableEq, Repr

/-- Result of the anti-cheat endpoint (the two response dictionaries of
`log_anti_cheat_event`). -/
inductive AntiCheatResult
  | blocked (is_disqualified : Bool) (disqualification_reason : Option String)
  | recorded (resp : AntiCheatRecordedResponse)
deriving DecidableEq, Repr

/-- Embedding of the `log_anti_cheat_event` route
(`POST /token/.../anti-cheat`): status gate, disqualified short-circuit,
audit-log append (storing the client-supplied timestamp string), counter
update, score recomputation, then the disqualify / warn escalation. -/
def log_anti_cheat_event (now : ℤ) (e : AntiCheatEvent) (t : Test) :
    Except ApiError (Test × AntiCheatResult) :=
  if t.status ≠ TestStatus.in_progress ∧ t.status ≠ TestStatus.on_break then
    Except.error ApiError.badRequest
  else if t.is_disqualified then
    Except.ok (t, AntiCheatResult.blocked true t.disqualification_reason)
  else
    let t1 := { t with violation_events := t.violation_events ++
      [{ type := e.event_type,
         timestamp := e.timestamp,
         details := e.details.getD "",
         chars := e.chars,
         lines := e.lines }] }
    let t2 := update_violation_counters e t1
    let score := violation_score_of ANTI_CHEAT_CONFIG t2
    let wc := t2.warning_count
    let should_disqualify : Bool := score ≥ ANTI_CHEAT_CONFIG.disqualification_threshold
    let should_warn : Bool :=
      ¬ score ≥ ANTI_CHEAT_CONFIG.disqualification_threshold ∧
        warning_boundary ANTI_CHEAT_CONFIG score wc
    let t3 :=
      if should_disqualify then
        { t2 with
          is_disqualified := true,
          disqualified_at := some now,
          disqualification_reason := some (disqualification_reason_string score) }
      else if should_warn then
        { t2 with warning_count := wc + 1 }
      else t2
    Except.ok (t3, AntiCheatResult.recorded
      { success := true,
        tab_switch_count := t3.tab_switch_count,
        paste_attempt_count := t3.paste_attempt_count,
        copy_attempt_count := t3.copy_attempt_count,
        right_click_count := t3.right_click_count,
        dev_tools_open_count := t3.dev_tools_open_count,
        focus_loss_count := t3.focus_loss_count,
        violation_score := score,
        warning_count := t3.warning_count,
        should_warn := should_warn,
        is_disqualified := t3.is_disqualified,
        disqualification_reason :=
          if t3.is_disqualified then t3.disqualification_reason else none })

/-- The single-flight generation lock: the in-memory set
`_test_generation_locks` guarded by `_lock`.  The guarded
check-and-insert of `create_test` is the atomic step below. -/
def lock_try_acquire (locks : List ℕ) (candidate_id : ℕ) :
    Except ApiError (List ℕ) :=
  if candidate_id ∈ locks then Except.error ApiError.conflict
  else Except.ok (candidate_id :: locks)

/-- The guarded `discard` in the `finally` block of `create_test`. -/
def lock_release (locks : List ℕ) (candidate_id : ℕ) : List ℕ :=
  locks.filter (fun c => c ≠ candidate_id)

/-- The freshly created `Test` row of `create_test`: Pending, break budget
from `calculate_break_time`, all counters and logs at their column
defaults. -/
def new_test (candidate_id : ℕ) (duration_hours : ℕ) : Test :=
  { candidate_id := candidate_id,
    duration_hours := duration_hours,
    status := TestStatus.pending,
    start_time := none,
    end_time := none,
    current_section := none,
    total_break_time_seconds := ((calculate_break_time duration_hours).1 : ℤ),
    used_break_time_seconds := 0,
    break_count := 0,
    current_break_start := none,
    break_history := [],
    tab_switch_count := 0,
    tab_switch_timestamps := [],
    paste_attempt_count := 0,
    copy_attempt_count := 0,
    right_click_count := 0,
    dev_tools_open_count := 0,
    focus_loss_count := 0,
    violation_events := [],
    warning_count := 0,
    is_disqualified := false,
    disqualified_at := none,
    disqualification_reason := none }

/-- Embedding of the `create_test` route (`POST /tests`): atomic
check-and-insert on the lock set; then the body (candidate lookup and the
slow question generation, abstracted by `candidate_duration` — `none` for
a missing candidate — and `generation_succeeds`); the `finally` block
releases the lock on every path out of the body.  Returns the final lock
set and the outcome. -/
def create_test (locks : List ℕ) (candidate_id : ℕ)
    (candidate_duration : Option ℕ) (generation_succeeds : Bool) :
    List ℕ × Except ApiError Test :=
  match lock_try_acquire locks candidate_id with
  | Except.error e => (locks, Except.error e)
  | Except.ok locks1 =>
      let result : Except ApiError Test :=
        match candidate_duration with
        | none => Except.error ApiError.notFound
        | some d =>
            if generation_succeeds then Except.ok (new_test candidate_id d)
            else Except.error ApiError.internalError
      (lock_release locks1 candidate_id, result)

/-- The break allowance an operation works against:
`test.total_break_time_seconds or total_break` where `total_break` is
recomputed by `calculate_break_time` (the stored field, set at creation,
with the recomputed value as fallback). -/
def total_allowed_of (t : Test) : ℤ :=
  pyOrInt t.total_break_time_seconds ((calculate_break_time t.duration_hours).1 : ℤ)

/-- A concrete one-hour session row with the column defaults, used to
instantiate the verified statements (its `total_break_time_seconds = 600`
is the creation-time value `calculate_break_time 1 = (600, 600)`). -/
def baseSession : Test :=
  { candidate_id := 7,
    duration_hours := 1,
    status := TestStatus.pending,
    start_time := none,
    end_time := none,
    current_section := none,
    total_break_time_seconds := 600,
    used_break_time_seconds := 0,
    break_count := 0,
    current_break_start := none,
    break_history := [],
    tab_switch_count := 0,
    tab_switch_timestamps := [],
    paste_attempt_count := 0,
    copy_attempt_count := 0,
    right_click_count := 0,
    dev_tools_open_count := 0,
    focus_loss_count := 0,
    violation_events := [],
    warning_count := 0,
    is_disqualified := false,
    disqualified_at := none,
    disqualification_reason := none }

/-- Projection form of the closed formula, total allowance component. -/
theorem calculate_break_time_fst (d : ℕ) :
    (calculate_break_time d).1 =
      if 8 ≤ d then 3600
      else if 4 ≤ d then 1800 + (d - 4) * 450
      else if 2 ≤ d then 900 + (d - 2) * 450
      else 600 := by
  rw [calculate_break_time_eq]; split_ifs <;> rfl

/-- Projection form of the closed formula, single-break cap component. -/
theorem calculate_break_time_snd (d : ℕ) :
    (calculate_break_time d).2 =
      if 8 ≤ d then 1200
      else if 4 ≤ d then 900 + (d - 4) * 75
      else if 2 ≤ d then 900
      else 600 := by
  rw [calculate_break_time_eq]; split_ifs <;> rfl

/-- C8: BreakBudgetCalculator is a pure function of `duration_hours` whose
two outputs (total break seconds, max single break seconds) are each
monotonically non-decreasing in the duration, and it matches the anchors
exactly: 4h gives (1800s, 900s), 8h gives (3600s, 1200s), and every
duration below 2h gives (600s, 600s). -/
theorem C8_break_budget_monotone_and_anchors :
    (∀ d1 d2 : ℕ, d1 ≤ d2 →
      (calculate_break_time d1).1 ≤ (calculate_break_time d2).1 ∧
      (calculate_break_time d1).2 ≤ (calculate_break_time d2).2) ∧
    calculate_break_time 4 = (1800, 900) ∧
    calculate_break_time 8 = (3600, 1200) ∧
    (∀ d : ℕ, d < 2 → calculate_break_time d = (600, 600)) := by
  refine ⟨?_, ?_, ?_, ?_⟩
  · intro d1 d2 h
    constructor
    · rw [calculate_break_time_fst, calculate_break_time_fst]
      split_ifs <;> omega
    · rw [calculate_break_time_snd, calculate_break_time_snd]
      split_ifs <;> omega
  · simp [calculate_break_time_eq]
  · simp [calculate_break_time_eq]
  · intro d hd
    rw [calculate_break_time_eq]
    have h2 : ¬ 2 ≤ d := by omega
    have h4 : ¬ 4 ≤ d := by omega
    have h8 : ¬ 8 ≤ d := by omega
    simp [h2, h4, h8]

/-- Witness for C8 at concrete durations 3 ≤ 5 and 1 < 2. -/
theorem C8_witness :
    ((calculate_break_time 3).1 ≤ (calculate_break_time 5).1 ∧
      (calculate_break_time 3).2 ≤ (calculate_break_time 5).2) ∧
    calculate_break_time 1 = (600, 600) :=
  ⟨C8_break_budget_monotone_and_anchors.1 3 5 (by decide),
   C8_break_budget_monotone_and_anchors.2.2.2 1 (by decide)⟩

/-- C7: if the generation lock is held for a candidate id, `create_test`
fails with a 409 conflict and creates no session, leaving the lock set
unchanged; if it is not held, the call releases the lock on every outcome
of the body (the `finally` block), and of two calls racing on the atomic
check-and-insert exactly the first acquires while the second gets the
conflict. -/
theorem C7_generation_lock (locks : List ℕ) (cid : ℕ)
    (cd : Option ℕ) (gen : Bool) :
    (cid ∈ locks →
      create_test locks cid cd gen = (locks, Except.error ApiError.conflict)) ∧
    (cid ∉ locks →
      cid ∉ (create_test locks cid cd gen).1 ∧
      (create_test locks cid cd gen).1 = locks ∧
      lock_try_acquire locks cid = Except.ok (cid :: locks) ∧
      lock_try_acquire (cid :: locks) cid = Except.error ApiError.conflict) := by
  constructor
  · intro hmem
    simp [create_test, lock_try_acquire, hmem]
  · intro hmem
    have hacq : lock_try_acquire locks cid = Except.ok (cid :: locks) := by
      simp [lock_try_acquire, hmem]
    have hrel : lock_release (cid :: locks) cid = locks := by
      simp only [lock_release, List.filter]
      have : (decide (cid ≠ cid)) = false := by simp
      rw [this]
      exact List.filter_eq_self.mpr (fun a ha => by
        simp only [decide_eq_true_eq]
        exact fun hEq => hmem (hEq ▸ ha))
    refine ⟨?_, ?_, hacq, ?_⟩
    · simp [create_test, hacq, hrel, hmem]
    · simp [create_test, hacq, hrel]
    · simp [lock_try_acquire]

/-- Witness for C7: candidate 7 with the lock held, and candidate 7 with
the lock free. -/
theorem C7_witness :
    create_test [7] 7 (some 1) true = ([7], Except.error ApiError.conflict) ∧
    7 ∉ (create_test [] 7 (some 1) true).1 :=
  ⟨(C7_generation_lock [7] 7 (some 1) true).1 (by decide),
   ((C7_generation_lock [] 7 (some 1) true).2 (by decide)).1⟩

/-- C9: `complete_test` is idempotent on the terminal state — on an
already-Completed session it (like the admin `mark_test_completed`)
returns the row unchanged with no error, and two successive
`complete_test` calls return the same snapshot. -/
theorem C9_complete_idempotent (now now2 : ℤ) (t t1 : Test) :
    (t.status = TestStatus.completed →
      complete_test now t = Except.ok t ∧
      mark_test_completed now t = (t, MarkCompletedResult.alreadyCompleted)) ∧
    (complete_test now t = Except.ok t1 → complete_test now2 t1 = Except.ok t1) := by
  constructor
  · intro h
    constructor
    · simp [complete_test, h]
    · simp [mark_test_completed, h]
  · intro h
    have hstat : t1.status = TestStatus.completed := by
      by_cases hc : t.status = TestStatus.completed
      · simp only [complete_test, hc, if_pos, Except.ok.injEq] at h
        rw [← h, hc]
      · simp only [complete_test, hc, if_neg, if_false, Except.ok.injEq,
          not_false_eq_true] at h
        rw [← h]
    simp [complete_test, hstat]

/-- Witness for C9 on a concrete completed session and a concrete first
completion. -/
theorem C9_witness :
    (complete_test 5 { baseSession with
        status := TestStatus.completed, end_time := some 3 } =
      Except.ok { baseSession with
        status := TestStatus.completed, end_time := some 3 } ∧
      mark_test_completed 5 { baseSession with
        status := TestStatus.completed, end_time := some 3 } =
      ({ baseSession with status := TestStatus.completed, end_time := some 3 },
        MarkCompletedResult.alreadyCompleted)) ∧
    complete_test 9 { baseSession with
        status := TestStatus.completed, end_time := some 3 } =
      Except.ok { baseSession with
        status := TestStatus.completed, end_time := some 3 } :=
  ⟨(C9_complete_idempotent 5 9
      { baseSession with status := TestStatus.completed, end_time := some 3 }
      baseSession).1 (by decide),
   (C9_complete_idempotent 5 9
      { baseSession with status := TestStatus.completed, end_time := some 3 }
      { baseSession with status := TestStatus.completed, end_time := some 3 }).2
      (by decide)⟩

/-- Session used to refute C1: OnBreak with the break open since time 0,
no budget used yet, 600s allowance. -/
def c1_session : Test :=
  { baseSession with
    status := TestStatus.on_break,
    start_time := some 0,
    current_break_start := some 0,
    break_count := 1,
    break_history := [{ start := 0, «end» := none, duration_seconds := 0 }] }

/-- The row produced by `complete_test 1000 c1_session`: the full 1000s of
elapsed break is credited, with no cap at the 600s allowance. -/
def c1_result : Test :=
  { c1_session with
    status := TestStatus.completed,
    end_time := some 1000,
    used_break_time_seconds := 1000,
    current_break_start := none,
    break_history := [{ start := 0, «end» := some 1000, duration_seconds := 1000 }] }

/-- Counterexample to C1: `complete_test` called while OnBreak does not cap
the credited break duration, so after it `used_break_seconds` (1000)
exceeds `allowed_break_seconds` (600). -/
theorem C1_counterexample :
    complete_test 1000 c1_session = Except.ok c1_result ∧
    ¬ c1_result.used_break_time_seconds ≤ total_allowed_of c1_result := by
  decide

/-- C1 as amended: `end_break` does cap the credited duration — after any
successful `end_break`, `used_break_seconds ≤ allowed_break_seconds`
holds, and the credited duration never exceeds the pre-call remaining
budget.  (`complete_test` while OnBreak credits the raw elapsed time,
uncapped — see the counterexample.) -/
theorem C1_amended_end_break_caps (now : ℤ) (t t' : Test) (r : BreakEndResponse)
    (h : end_break now t = Except.ok (t', r)) :
    t'.used_break_time_seconds ≤ total_allowed_of t' ∧
    r.break_duration_seconds ≤ total_allowed_of t - t.used_break_time_seconds := by
  rw [end_break] at h
  split_ifs at h with hst
  cases hcb : t.current_break_start with
  | none => rw [hcb] at h; exact absurd h (by simp)
  | some cbs =>
      rw [hcb] at h
      simp only [Except.ok.injEq, Prod.mk.injEq] at h
      obtain ⟨ht, hr⟩ := h
      have hmin : min (now - cbs)
          (total_allowed_of t - t.used_break_time_seconds) ≤
          total_allowed_of t - t.used_break_time_seconds :=
        min_le_right _ _
      constructor
      · rw [← ht]
        simp only [total_allowed_of, pyOrInt]
        simp only [total_allowed_of, pyOrInt] at hmin
        omega
      · rw [← hr]
        simp only [total_allowed_of] at hmin
        exact hmin

/-- Session for the C1 witness: same OnBreak state, ended via `end_break`
at time 1000, which caps the credit at the remaining 600s. -/
def c1w_result : Test :=
  { c1_session with
    status := TestStatus.in_progress,
    used_break_time_seconds := 600,
    current_break_start := none,
    break_history := [{ start := 0, «end» := some 1000, duration_seconds := 600 }] }

/-- Response returned by `end_break 1000 c1_session`. -/
def c1w_response : BreakEndResponse :=
  { success := true,
    exceeded := true,
    break_duration_seconds := 600,
    remaining_break_time_seconds := 0,
    total_used_break_time_seconds := 600 }

/-- Witness for the amended C1 at a concrete overlong break. -/
theorem C1_witness :
    c1w_result.used_break_time_seconds ≤ total_allowed_of c1w_result ∧
    c1w_response.break_duration_seconds ≤
      total_allowed_of c1_session - c1_session.used_break_time_seconds :=
  C1_amended_end_break_caps 1000 c1_session c1w_result c1w_response (by decide)

/-- Disqualified but InProgress session used to refute C2. -/
def c2_session : Test :=
  { baseSession with
    status := TestStatus.in_progress,
    start_time := some 0,
    is_disqualified := true,
    disqualification_reason := some "Exceeded violation threshold (score: 6)" }

/-- The row produced by `start_break 100 c2_session`: the break starts
normally despite the disqualification. -/
def c2_result : Test :=
  { c2_session with
    status := TestStatus.on_break,
    current_break_start := some 100,
    break_count := 1,
    break_history := [{ start := 100, «end» := none, duration_seconds := 0 }] }

/-- Counterexample to C2: `start_break` on a disqualified session does not
short-circuit — it succeeds and performs its normal state change. -/
theorem C2_counterexample :
    c2_session.is_disqualified = true ∧
    start_break 100 c2_session = Except.ok (c2_result,
      { success := true,
        remaining_break_time_seconds := 600,
        max_single_break_seconds := 600,
        break_start_time := some 100 }) := by
  decide

/-- C2 as amended: of the candidate-facing mutations only RecordViolation
(the anti-cheat endpoint) checks `is_disqualified`; on a disqualified
session it returns the blocked-session response and leaves the row
unchanged. -/
theorem C2_amended_record_violation_blocks (now : ℤ) (e : AntiCheatEvent) (t : Test)
    (hst : t.status = TestStatus.in_progress ∨ t.status = TestStatus.on_break)
    (hdq : t.is_disqualified = true) :
    log_anti_cheat_event now e t =
      Except.ok (t, AntiCheatResult.blocked true t.disqualification_reason) := by
  have h1 : ¬ (t.status ≠ TestStatus.in_progress ∧ t.status ≠ TestStatus.on_break) := by
    rcases hst with h | h <;> simp [h]
  rw [log_anti_cheat_event]
  rw [if_neg h1, if_pos hdq]

/-- Witness for the amended C2 on a concrete disqualified session. -/
theorem C2_witness :
    log_anti_cheat_event 50
      { event_type := EventType.tab_switch,
        timestamp := "2024-01-01T10:00:00",
        chars := none, lines := none, details := none } c2_session =
    Except.ok (c2_session,
      AntiCheatResult.blocked true c2_session.disqualification_reason) :=
  C2_amended_record_violation_blocks 50
    { event_type := EventType.tab_switch,
      timestamp := "2024-01-01T10:00:00",
      chars := none, lines := none, details := none } c2_session
    (by decide) (by decide)

/-- A one-hour InProgress session started at time 0 with no break usage,
read 3700 seconds later (the C4/C5 scenario). -/
def c4_session : Test :=
  { baseSession with status := TestStatus.in_progress, start_time := some 0 }

/-- Counterexample to C4: the lazy-expired read returns
`time_remaining_seconds = none` (the response model default `null`), not
`remaining_seconds == 0` as claimed. -/
theorem C4_counterexample :
    (get_test_by_token 3700 c4_session).2.status = TestStatus.expired ∧
    (get_test_by_token 3700 c4_session).2.time_remaining_seconds = none ∧
    ¬ (get_test_by_token 3700 c4_session).2.time_remaining_seconds = some 0 := by
  decide

/-- C4 as amended: for a session with `duration_hours = 1`,
`start_time = now - 3700`, no used break time: a read while InProgress
returns status Expired with a null `time_remaining_seconds` (not 0); a
read while OnBreak leaves the status OnBreak (no lazy expiry) and reports
zero remaining seconds. -/
theorem C4_amended_lazy_expiry (now st : ℤ) (t : Test)
    (hd : t.duration_hours = 1) (hu : t.used_break_time_seconds = 0)
    (hs : t.start_time = some st) (hn : st + 3700 = now) :
    (t.status = TestStatus.in_progress →
      (get_test_by_token now t).1.status = TestStatus.expired ∧
      (get_test_by_token now t).2.status = TestStatus.expired ∧
      (get_test_by_token now t).2.time_remaining_seconds = none) ∧
    (t.status = TestStatus.on_break →
      (get_test_by_token now t).1.status = TestStatus.on_break ∧
      (get_test_by_token now t).2.status = TestStatus.on_break ∧
      (get_test_by_token now t).2.time_remaining_seconds = some 0) := by
  have hlt : st + 3600 < now := by omega
  constructor
  · intro hstat
    simp [get_test_by_token, hs, hd, hu, hstat, hlt]
  · intro hstat
    simp [get_test_by_token, hs, hd, hu, hstat]
    omega

/-- Witness for the amended C4 at `now = 3700`, `st = 0`, on both the
InProgress session and its OnBreak variant. -/
theorem C4_witness :
    ((get_test_by_token 3700 c4_session).1.status = TestStatus.expired ∧
     (get_test_by_token 3700 c4_session).2.status = TestStatus.expired ∧
     (get_test_by_token 3700 c4_session).2.time_remaining_seconds = none) ∧
    ((get_test_by_token 3700 { c4_session with
        status := TestStatus.on_break }).1.status = TestStatus.on_break ∧
     (get_test_by_token 3700 { c4_session with
        status := TestStatus.on_break }).2.status = TestStatus.on_break ∧
     (get_test_by_token 3700 { c4_session with
        status := TestStatus.on_break }).2.time_remaining_seconds = some 0) :=
  ⟨(C4_amended_lazy_expiry 3700 0 c4_session
      (by decide) (by decide) (by decide) (by decide)).1 (by decide),
   (C4_amended_lazy_expiry 3700 0 { c4_session with status := TestStatus.on_break }
      (by decide) (by decide) (by decide) (by decide)).2 (by decide)⟩

/-- Counterexample to C5: the lazy-expiry transition of a read sets status
Expired but leaves `end_time` null, so `end_time` is not non-null for
every Expired session. -/
theorem C5_counterexample :
    (get_test_by_token 3700 c4_session).1.status = TestStatus.expired ∧
    (get_test_by_token 3700 c4_session).1.end_time = none := by
  decide

/-- C5 as amended: every `complete_test` and every admin
`mark_test_completed` of a not-yet-completed session establishes a
non-null `end_time` together with status Completed, but the lazy-expiry
read path never writes `end_time` (so Expired-via-read keeps it null). -/
theorem C5_amended_end_time (now : ℤ) (t : Test) :
    (∀ t', t.status ≠ TestStatus.completed → complete_test now t = Except.ok t' →
      t'.status = TestStatus.completed ∧ t'.end_time = some now) ∧
    (t.status ≠ TestStatus.completed →
      (mark_test_completed now t).1.status = TestStatus.completed ∧
      (mark_test_completed now t).1.end_time ≠ none) ∧
    (get_test_by_token now t).1.end_time = t.end_time := by
  refine ⟨?_, ?_, ?_⟩
  · intro t' hne h
    cases hcb : t.current_break_start with
    | none =>
        simp only [complete_test, hne, if_neg, if_false, hcb,
          Except.ok.injEq, not_false_eq_true] at h
        rw [← h]
        exact ⟨rfl, rfl⟩
    | some cbs =>
        simp only [complete_test, hne, if_neg, if_false, hcb,
          Except.ok.injEq, not_false_eq_true] at h
        by_cases hob : t.status = TestStatus.on_break
        · rw [if_pos hob] at h
          rw [← h]
          exact ⟨rfl, rfl⟩
        · rw [if_neg hob] at h
          rw [← h]
          exact ⟨rfl, rfl⟩
  · intro hne
    simp [mark_test_completed, hne]
  · cases hst : t.start_time with
    | none => simp [get_test_by_token, hst]
    | some st =>
        simp only [get_test_by_token, hst]
        split_ifs <;> rfl

/-- The row produced by `complete_test 5 c4_session`. -/
def c5_completed : Test :=
  { c4_session with status := TestStatus.completed, end_time := some 5 }

/-- Witness for the amended C5 at a concrete completion and read. -/
theorem C5_witness :
    (c5_completed.status = TestStatus.completed ∧ c5_completed.end_time = some 5) ∧
    ((mark_test_completed 5 c4_session).1.status = TestStatus.completed ∧
     (mark_test_completed 5 c4_session).1.end_time ≠ none) ∧
    (get_test_by_token 5 c4_session).1.end_time = c4_session.end_time :=
  ⟨(C5_amended_end_time 5 c4_session).1 c5_completed (by decide) (by decide),
   (C5_amended_end_time 5 c4_session).2.1 (by decide),
   (C5_amended_end_time 5 c4_session).2.2⟩

/-- Whether the last break-history entry is open (has a null `end`);
`false` on an empty history. -/
def last_entry_open (history : List BreakEntry) : Bool :=
  match history.getLast? with
  | some b => b.«end» = none
  | none => false

/-- The two break-bookkeeping invariants of the data model:
`current_break_start` is non-null iff OnBreak, and the last break-history
entry is open iff OnBreak. -/
def break_invariant (t : Test) : Prop :=
  (t.current_break_start ≠ none ↔ t.status = TestStatus.on_break) ∧
  (last_entry_open t.break_history = true ↔ t.status = TestStatus.on_break)

instance (t : Test) : Decidable (break_invariant t) := by
  unfold break_invariant; infer_instance

theorem last_entry_open_concat (l : List BreakEntry) (b : BreakEntry) :
    last_entry_open (l ++ [b]) = decide (b.«end» = none) := by
  unfold last_entry_open
  rw [List.getLast?_concat]

theorem last_entry_open_iff (l : List BreakEntry) :
    last_entry_open l = true ↔ ∃ b, l.getLast? = some b ∧ b.«end» = none := by
  unfold last_entry_open
  cases hl : l.getLast? with
  | none => simp
  | some b => simp [hl]

theorem closeLastOpenEntry_getLast (history : List BreakEntry) (b : BreakEntry)
    (hb : history.getLast? = some b) (hopen : b.«end» = none) (endT dur : ℤ) :
    (closeLastOpenEntry history endT dur).getLast? =
      some { b with «end» := some endT, duration_seconds := dur } := by
  unfold closeLastOpenEntry
  rw [hb]
  simp only [hopen, if_true, ite_true]
  exact List.getLast?_concat _

theorem last_entry_open_close (history : List BreakEntry) (b : BreakEntry)
    (hb : history.getLast? = some b) (hopen : b.«end» = none) (endT dur : ℤ) :
    last_entry_open (closeLastOpenEntry history endT dur) = false := by
  unfold last_entry_open
  rw [closeLastOpenEntry_getLast history b hb hopen]
  simp

/-- The fields of the row that `update_violation_counters` leaves
untouched. -/
theorem update_violation_counters_preserves (e : AntiCheatEvent) (t : Test) :
    (update_violation_counters e t).status = t.status ∧
    (update_violation_counters e t).current_break_start = t.current_break_start ∧
    (update_violation_counters e t).break_history = t.break_history ∧
    (update_violation_counters e t).violation_events = t.violation_events ∧
    (update_violation_counters e t).warning_count = t.warning_count ∧
    (update_violation_counters e t).is_disqualified = t.is_disqualified := by
  cases he : e.event_type <;> simp [update_violation_counters, he]

/-- `break_invariant` only reads status, `current_break_start` and
`break_history`. -/
theorem break_invariant_congr (t t' : Test)
    (h1 : t'.status = t.status)
    (h2 : t'.current_break_start = t.current_break_start)
    (h3 : t'.break_history = t.break_history)
    (h : break_invariant t) : break_invariant t' := by
  unfold break_invariant at h ⊢
  rw [h1, h2, h3]
  exact h

/-- The anti-cheat endpoint never touches status, the current break or the
break history. -/
theorem log_anti_cheat_break_fields (now : ℤ) (e : AntiCheatEvent) (t t' : Test)
    (r : AntiCheatResult)
    (heq : log_anti_cheat_event now e t = Except.ok (t', r)) :
    t'.status = t.status ∧
    t'.current_break_start = t.current_break_start ∧
    t'.break_history = t.break_history := by
  rw [log_anti_cheat_event] at heq
  split_ifs at heq with hgate hdq
  · simp only [Except.ok.injEq, Prod.mk.injEq] at heq
    rw [← heq.1]
    exact ⟨rfl, rfl, rfl⟩
  · simp only [Except.ok.injEq, Prod.mk.injEq] at heq
    obtain ⟨ht, -⟩ := heq
    have hu := update_violation_counters_preserves e
      { t with violation_events := t.violation_events ++
        [{ type := e.event_type, timestamp := e.timestamp,
           details := e.details.getD "", chars := e.chars, lines := e.lines }] }
    split_ifs at ht <;> rw [← ht] <;>
      exact ⟨hu.1, hu.2.1, hu.2.2.1⟩

/-- C6 as amended: the break-bookkeeping invariants are preserved by every
candidate-facing operation (start, start-break, end-break, complete,
record-violation) and by the lazy-expiring read — but not by the
administrative MarkCompleted (see the counterexample). -/
theorem C6_amended_candidate_ops_preserve_break_invariant
    (now : ℤ) (e : AntiCheatEvent) (t : Test) (h : break_invariant t) :
    (∀ t', start_test now t = Except.ok t' → break_invariant t') ∧
    (∀ t' r, start_break now t = Except.ok (t', r) → break_invariant t') ∧
    (∀ t' r, end_break now t = Except.ok (t', r) → break_invariant t') ∧
    (∀ t', complete_test now t = Except.ok t' → break_invariant t') ∧
    (∀ t' r, log_anti_cheat_event now e t = Except.ok (t', r) → break_invariant t') ∧
    break_invariant (get_test_by_token now t).1 := by
  refine ⟨?_, ?_, ?_, ?_, ?_, ?_⟩
  · intro t' heq
    rw [start_test] at heq
    split_ifs at heq with hp
    have hpend : t.status = TestStatus.pending := not_ne_iff.mp hp
    have hcbs : t.current_break_start = none := by
      by_contra hne
      have := h.1.mp hne
      rw [hpend] at this
      exact absurd this (by decide)
    have hlast : ¬ last_entry_open t.break_history = true := by
      intro hob
      have := h.2.mp hob
      rw [hpend] at this
      exact absurd this (by decide)
    simp only [Except.ok.injEq] at heq
    rw [← heq]
    constructor
    · simp [hcbs]
    · simpa using hlast
  · intro t' r heq
    simp only [start_break] at heq
    split_ifs at heq with hip hrem
    simp only [Except.ok.injEq, Prod.mk.injEq] at heq
    obtain ⟨ht, -⟩ := heq
    rw [← ht]
    constructor
    · simp
    · simp [last_entry_open_concat]
  · intro t' r heq
    simp only [end_break] at heq
    split_ifs at heq with hob
    have hstat : t.status = TestStatus.on_break := not_ne_iff.mp hob
    obtain ⟨b, hb, hopen⟩ := (last_entry_open_iff t.break_history).mp
      (h.2.mpr hstat)
    cases hcb : t.current_break_start with
    | none => rw [hcb] at heq; exact absurd heq (by simp)
    | some cbs =>
        rw [hcb] at heq
        simp only [Except.ok.injEq, Prod.mk.injEq] at heq
        obtain ⟨ht, -⟩ := heq
        rw [← ht]
        constructor
        · simp
        · simp [last_entry_open_close t.break_history b hb hopen]
  · intro t' heq
    by_cases hcomp : t.status = TestStatus.completed
    · simp only [complete_test, hcomp, if_true, ite_true, Except.ok.injEq] at heq
      rw [← heq]
      exact h
    · cases hcb : t.current_break_start with
      | none =>
          have hnob : t.status ≠ TestStatus.on_break := by
            intro hob
            exact (h.1.mpr hob) hcb
          have hlast : ¬ last_entry_open t.break_history = true := by
            intro hop
            exact hnob (h.2.mp hop)
          simp only [complete_test, hcomp, if_false, ite_false, hcb,
            Except.ok.injEq] at heq
          rw [← heq]
          constructor
          · simp [hcb]
          · simpa using hlast
      | some cbs =>
          have hob : t.status = TestStatus.on_break :=
            h.1.mp (by simp [hcb])
          obtain ⟨b, hb, hopen⟩ := (last_entry_open_iff t.break_history).mp
            (h.2.mpr hob)
          simp only [complete_test, hcomp, if_false, ite_false, hcb,
            Except.ok.injEq] at heq
          rw [if_pos hob] at heq
          simp only [Except.ok.injEq] at heq
          rw [← heq]
          constructor
          · simp
          · simp [last_entry_open_close t.break_history b hb hopen]
  · intro t' r heq
    obtain ⟨h1, h2, h3⟩ := log_anti_cheat_break_fields now e t t' r heq
    exact break_invariant_congr t t' h1 h2 h3 h
  · rw [get_test_by_token]
    cases hst : t.start_time with
    | none => exact h
    | some st =>
        simp only
        split_ifs with hin hexp
        · have hnob : t.status ≠ TestStatus.on_break := hexp.2
          have hcbs : t.current_break_start = none := by
            by_contra hne
            exact hnob (h.1.mp hne)
          have hlast : ¬ last_entry_open t.break_history = true := by
            intro hop
            exact hnob (h.2.mp hop)
          constructor
          · simp [hcbs]
          · simpa using hlast
        · exact h
        · exact h

/-- Counterexample to C6: the administrative MarkCompleted on an OnBreak
session leaves `current_break_start` non-null and the last break-history
entry open while the status is Completed. -/
theorem C6_counterexample :
    break_invariant c1_session ∧
    (mark_test_completed 100 c1_session).1.status = TestStatus.completed ∧
    (mark_test_completed 100 c1_session).1.current_break_start = some 0 ∧
    last_entry_open (mark_test_completed 100 c1_session).1.break_history = true := by
  decide

/-- Witness for the amended C6: the invariant holds after a concrete
`end_break` and after a concrete lazy-expiring read. -/
theorem C6_witness :
    break_invariant c1w_result ∧ break_invariant (get_test_by_token 3700 c4_session).1 :=
  ⟨(C6_amended_candidate_ops_preserve_break_invariant 1000
      { event_type := EventType.tab_switch, timestamp := "t",
        chars := none, lines := none, details := none }
      c1_session (by decide)).2.2.1 c1w_result c1w_response (by decide),
   (C6_amended_candidate_ops_preserve_break_invariant 3700
      { event_type := EventType.tab_switch, timestamp := "t",
        chars := none, lines := none, details := none }
      c4_session (by decide)).2.2.2.2.2⟩

/-- A concrete anti-cheat request with a client timestamp far in the
future. -/
def evA : AntiCheatEvent :=
  { event_type := EventType.tab_switch, timestamp := "2030-05-05T12:00:00",
    chars := none, lines := none, details := none }

/-- The same request with a client timestamp far in the past. -/
def evB : AntiCheatEvent :=
  { event_type := EventType.tab_switch, timestamp := "1999-01-01T00:00:00",
    chars := none, lines := none, details := none }

/-- On the non-blocked path, `log_anti_cheat_event` appends exactly one
entry to the audit log, whose `timestamp` field is the client-supplied
string `event.timestamp`. -/
theorem log_events_append (now : ℤ) (e : AntiCheatEvent) (t : Test)
    (hst : t.status = TestStatus.in_progress ∨ t.status = TestStatus.on_break)
    (hdq : t.is_disqualified = false) :
    (log_anti_cheat_event now e t).map (fun p => p.1.violation_events) =
      Except.ok (t.violation_events ++
        [{ type := e.event_type, timestamp := e.timestamp,
           details := e.details.getD "", chars := e.chars, lines := e.lines }]) := by
  have hgate : ¬ (t.status ≠ TestStatus.in_progress ∧ t.status ≠ TestStatus.on_break) := by
    rcases hst with h | h <;> simp [h]
  rw [log_anti_cheat_event, if_neg hgate,
    if_neg (show ¬ t.is_disqualified = true by simp [hdq])]
  simp only [Except.map]
  have hup := update_violation_counters_preserves e
    { t with violation_events := t.violation_events ++
      [{ type := e.event_type, timestamp := e.timestamp,
         details := e.details.getD "", chars := e.chars, lines := e.lines }] }
  split_ifs <;> simp [hup.2.2.2.1]

/-- Counterexample to C3: with the server clock fixed at the same instant,
the audit-log entry stores whatever timestamp string the client supplied —
the stored value follows the client field, so it is not server-assigned. -/
theorem C3_counterexample :
    (log_anti_cheat_event 50 evA c4_session).map (fun p => p.1.violation_events) =
      Except.ok [{ type := EventType.tab_switch, timestamp := evA.timestamp,
                   details := "", chars := none, lines := none }] ∧
    (log_anti_cheat_event 50 evB c4_session).map (fun p => p.1.violation_events) =
      Except.ok [{ type := EventType.tab_switch, timestamp := evB.timestamp,
                   details := "", chars := none, lines := none }] ∧
    evA.timestamp ≠ evB.timestamp := by
  refine ⟨?_, ?_, by decide⟩
  · have h := log_events_append 50 evA c4_session (Or.inl rfl) rfl
    simpa [evA, c4_session, baseSession] using h
  · have h := log_events_append 50 evB c4_session (Or.inl rfl) rfl
    simpa [evB, c4_session, baseSession] using h

/-- C3 as amended: the violation-event audit log is append-only, but the
timestamp stored in the appended entry is the client-supplied
`event.timestamp` string, not a server-assigned time (the server clock is
used only for `disqualified_at`). -/
theorem C3_amended_client_timestamp_stored (now : ℤ) (e : AntiCheatEvent) (t : Test)
    (hst : t.status = TestStatus.in_progress ∨ t.status = TestStatus.on_break)
    (hdq : t.is_disqualified = false) :
    (log_anti_cheat_event now e t).map (fun p => p.1.violation_events) =
      Except.ok (t.violation_events ++
        [{ type := e.event_type, timestamp := e.timestamp,
           details := e.details.getD "", chars := e.chars, lines := e.lines }]) :=
  log_events_append now e t hst hdq

/-- Witness for the amended C3 at a concrete event and session. -/
theorem C3_witness :
    (log_anti_cheat_event 50 evA c4_session).map (fun p => p.1.violation_events) =
      Except.ok (c4_session.violation_events ++
        [{ type := evA.event_type, timestamp := evA.timestamp,
           details := evA.details.getD "", chars := evA.chars, lines := evA.lines }]) :=
  C3_amended_client_timestamp_stored 50 evA c4_session (Or.inl rfl) rfl

/-- The violation score recomputed by the anti-cheat endpoint after the
counter update for event `e` (the audit-log append does not enter the
score). -/
def score_after (e : AntiCheatEvent) (t : Test) : ℚ :=
  violation_score_of ANTI_CHEAT_CONFIG (update_violation_counters e t)

theorem score_after_events (e : AntiCheatEvent) (t : Test) (X : List ViolationEvent) :
    violation_score_of ANTI_CHEAT_CONFIG
      (update_violation_counters e { t with violation_events := X }) =
      score_after e t := by
  cases he : e.event_type <;>
    simp [update_violation_counters, violation_score_of, score_after, he]

/-- The threshold-scaled warning boundary reduces to
`score ≥ warning_count + 1` whenever the threshold is non-zero: the
threshold cancels out of `threshold * (warning_count + 1) / threshold`. -/
theorem warning_boundary_iff (cfg : AntiCheatConfig) (score : ℚ) (wc : ℕ)
    (hT : cfg.warning_threshold ≠ 0) :
    warning_boundary cfg score wc ↔ score ≥ (wc : ℚ) + 1 := by
  unfold warning_boundary
  rw [mul_div_cancel_left₀ _ hT]

/-- C10: the configured `warning_threshold` cancels algebraically out of
the warning-boundary comparison, so (below the disqualification threshold)
`warning_count` is incremented exactly when the new violation score
reaches `warning_count + 1` — independent of the threshold value. -/
theorem C10_warning_threshold_cancels :
    (∀ (cfg : AntiCheatConfig) (score : ℚ) (wc : ℕ), cfg.warning_threshold ≠ 0 →
      (warning_boundary cfg score wc ↔ score ≥ (wc : ℚ) + 1)) ∧
    (∀ (now : ℤ) (e : AntiCheatEvent) (t : Test),
      t.status = TestStatus.in_progress ∨ t.status = TestStatus.on_break →
      t.is_disqualified = false →
      score_after e t < ANTI_CHEAT_CONFIG.disqualification_threshold →
      (log_anti_cheat_event now e t).map (fun p => p.1.warning_count) =
        Except.ok (if (t.warning_count : ℚ) + 1 ≤ score_after e t
          then t.warning_count + 1 else t.warning_count)) := by
  constructor
  · exact warning_boundary_iff
  · intro now e t hst hdq hlt
    have hgate : ¬ (t.status ≠ TestStatus.in_progress ∧ t.status ≠ TestStatus.on_break) := by
      rcases hst with h | h <;> simp [h]
    rw [log_anti_cheat_event, if_neg hgate,
      if_neg (show ¬ t.is_disqualified = true by simp [hdq])]
    simp only [Except.map]
    set tb : Test := { t with violation_events := t.violation_events ++
      [{ type := e.event_type, timestamp := e.timestamp,
         details := e.details.getD "", chars := e.chars, lines := e.lines }] } with htb
    have hscore : violation_score_of ANTI_CHEAT_CONFIG (update_violation_counters e tb) =
        score_after e t := by
      rw [htb]
      exact score_after_events e t _
    have hwc : (update_violation_counters e tb).warning_count = t.warning_count := by
      rw [htb]
      exact (update_violation_counters_preserves e _).2.2.2.2.1
    have hT : ANTI_CHEAT_CONFIG.warning_threshold ≠ 0 := by decide
    have hc1 : ¬ (violation_score_of ANTI_CHEAT_CONFIG (update_violation_counters e tb) ≥
        ANTI_CHEAT_CONFIG.disqualification_threshold) := by
      rw [hscore]
      exact not_le.mpr hlt
    rw [if_neg (by simpa using hc1)]
    by_cases hb : (t.warning_count : ℚ) + 1 ≤ score_after e t
    · have hc2 : ¬ (violation_score_of ANTI_CHEAT_CONFIG (update_violation_counters e tb) ≥
          ANTI_CHEAT_CONFIG.disqualification_threshold) ∧
          warning_boundary ANTI_CHEAT_CONFIG
            (violation_score_of ANTI_CHEAT_CONFIG (update_violation_counters e tb))
            (update_violation_counters e tb).warning_count := by
        refine ⟨hc1, ?_⟩
        rw [warning_boundary_iff ANTI_CHEAT_CONFIG _ _ hT, hscore, hwc]
        exact hb
      rw [if_pos (by simpa using hc2)]
      simp only [hwc, if_pos hb]
    · have hc2 : ¬ (¬ (violation_score_of ANTI_CHEAT_CONFIG (update_violation_counters e tb) ≥
          ANTI_CHEAT_CONFIG.disqualification_threshold) ∧
          warning_boundary ANTI_CHEAT_CONFIG
            (violation_score_of ANTI_CHEAT_CONFIG (update_violation_counters e tb))
            (update_violation_counters e tb).warning_count) := by
        intro hcc
        apply hb
        have hbd := hcc.2
        rw [warning_boundary_iff ANTI_CHEAT_CONFIG _ _ hT, hscore, hwc] at hbd
        exact hbd
      rw [if_neg (by simpa using hc2)]
      simp only [hwc, if_neg hb]

/-- Score of a single tab-switch on the fresh session: 1.0, below the
disqualification threshold. -/
theorem c10_score_lt :
    score_after evA c4_session < ANTI_CHEAT_CONFIG.disqualification_threshold := by
  norm_num [score_after, update_violation_counters, violation_score_of,
    ANTI_CHEAT_CONFIG, c4_session, baseSession, evA]

/-- Witness for C10 on the concrete configuration and a concrete
tab-switch event. -/
theorem C10_witness :
    (warning_boundary ANTI_CHEAT_CONFIG 1 0 ↔ (1 : ℚ) ≥ ((0 : ℕ) : ℚ) + 1) ∧
    (log_anti_cheat_event 50 evA c4_session).map (fun p => p.1.warning_count) =
      Except.ok (if (c4_session.warning_count : ℚ) + 1 ≤ score_after evA c4_session
        then c4_session.warning_count + 1 else c4_session.warning_count) :=
  ⟨C10_warning_threshold_cancels.1 ANTI_CHEAT_CONFIG 1 0 (by decide),
   C10_warning_threshold_cancels.2 50 evA c4_session (Or.inl rfl) rfl c10_score_lt⟩

end KOSTests
